import Mathlib

/-!
Shallow embedding of the todo-manager client core: the `useTodoManager` hook
(task store), the `todoApi` remote client, and the two filter/sort projections
(the hook's and the Home page's).

Modelling conventions:
* Timestamps are epoch milliseconds (`Nat`); `new Date()` at a call site is an
  explicit `now : Nat` parameter.
* A JavaScript object field that may be absent is an `Option`; `none` models
  the field being absent (`undefined`). `Task.dueDate` is doubly optional:
  the outer `none` is an absent field, `some none` is an explicit `null`.
* An awaited promise outcome is an `Except String` value supplied as a
  parameter: `.ok` models the promise resolving, `.error` models rejection.
* React state updates are explicit state passing on `TodoState`; each store
  operation returns the state right after its optimistic update (`mid`), the
  state when the operation settles (`final`), and the error it re-throws, if
  any (`thrown`).
-/

namespace TodoManager

/-- A subtask record (`src/client/services/todoApi.js` mock shape and
`SubtaskList` usage). Fields other than `id` are `Option`-valued: `none`
models a field absent from the underlying JavaScript object. -/
structure Subtask where
  id : String
  taskId : Option String := none
  title : Option String := none
  completed : Option Bool := none
  createdAt : Option Nat := none
  order : Option Nat := none
deriving Repr, DecidableEq

/-- A task record as held by the store. `none` models an absent field; dates
are epoch milliseconds. -/
structure Task where
  id : String
  title : Option String := none
  description : Option String := none
  completed : Option Bool := none
  priority : Option String := none
  category : Option String := none
  tags : Option (List String) := none
  dueDate : Option (Option Nat) := none
  createdAt : Option Nat := none
  updatedAt : Option Nat := none
  subtasks : Option (List Subtask) := none
  order : Option Nat := none
deriving Repr, DecidableEq

/-- A partial task object — the `taskData` / `updateData` argument of
`addTask` / `updateTask`. `none` means the field is not present in the patch
object. (Callers never put an `id` in a patch.) -/
structure TaskPatch where
  title : Option String := none
  description : Option String := none
  completed : Option Bool := none
  priority : Option String := none
  category : Option String := none
  tags : Option (List String) := none
  dueDate : Option (Option Nat) := none
  order : Option Nat := none
deriving Repr, DecidableEq

/-- ASCII lower-casing of one character. The source's `toLowerCase()` folds
full Unicode; every string this repository compares is ASCII, which this
models exactly. -/
def jsLowerChar (c : Char) : Char :=
  if 65 ≤ c.toNat ∧ c.toNat ≤ 90 then Char.ofNat (c.toNat + 32) else c

/-- `s.toLowerCase()` (ASCII case folding, see `jsLowerChar`). -/
def jsToLower (s : String) : String :=
  ⟨s.data.map jsLowerChar⟩

/-- `s.trim()`: strips leading and trailing whitespace. -/
def jsTrim (s : String) : String :=
  ⟨((s.data.dropWhile Char.isWhitespace).reverse.dropWhile Char.isWhitespace).reverse⟩

/-- Character-list version of `isPrefixOf`, comparing scalar values. -/
def chPre : List Char → List Char → Bool
  | [], _ => true
  | _ :: _, [] => false
  | a :: as, b :: bs => a.toNat == b.toNat && chPre as bs

/-- Character-list substring containment. -/
def chSub (sub : List Char) : List Char → Bool
  | [] => chPre sub []
  | b :: bs => chPre sub (b :: bs) || chSub sub bs

/-- `s.includes(sub)` on JavaScript strings: substring containment. -/
def jsIncludes (s sub : String) : Bool :=
  chSub sub.data s.data

/-- JavaScript `<` on two strings: lexicographic comparison of code units
(scalar values for the ASCII/BMP strings this repository handles). -/
def chLt : List Char → List Char → Bool
  | [], [] => false
  | [], _ :: _ => true
  | _ :: _, [] => false
  | a :: as, b :: bs =>
    if a.toNat < b.toNat then true
    else if b.toNat < a.toNat then false
    else chLt as bs

/-- JavaScript string comparison `a < b`. -/
def jsStrLt (a b : String) : Bool :=
  chLt a.data b.data

/-- Insert `a` into `acc` after every element `b` with `le b a`. Used by
`jsSort`. -/
def insertStable (le : α → α → Bool) (a : α) : List α → List α
  | [] => [a]
  | b :: bs => if le b a then b :: insertStable le a bs else a :: b :: bs

/-- `Array.prototype.sort(comparator)`: a stable sort. Modelled as a stable
insertion sort over `le a b := comparator a b ≤ 0`; for a consistent
comparator every stable sort produces this same output. -/
def jsSort (le : α → α → Bool) (l : List α) : List α :=
  l.foldl (fun acc a => insertStable le a acc) []

/-- `tasks.map(task => task.id === taskId ? c : task)` — the replacement map
used throughout the hook. -/
def replaceById (x : String) (c : Task) (l : List Task) : List Task :=
  l.map (fun t => if t.id == x then c else t)

/-- The sort fields the projections recognise (`sortConfig.field`). -/
inductive SortField
  | title
  | createdAt
  | dueDate
  | priority
  | order
deriving Repr, DecidableEq

/-- `sortConfig`: `field := none` models a falsy `sortConfig.field`. The
direction is kept as the raw string, compared against the literal string asc
as in the source. -/
structure SortConfig where
  field : Option SortField
  direction : String
deriving Repr, DecidableEq

/-- The hook's `filters` object. Empty string / empty list model the falsy
defaults. -/
structure Filters where
  status : String := ""
  priority : String := ""
  category : String := ""
  tags : List String := []
deriving Repr, DecidableEq

/-- `{ high: 3, medium: 2, low: 1 }[aValue] || 0`. -/
def priorityOrder (p : Option String) : Nat :=
  match p with
  | some s => if s == "high" then 3 else if s == "medium" then 2 else if s == "low" then 1 else 0
  | none => 0

/-- The value `a[sortConfig.field]` after the comparator's per-field
transforms. `undef` models JavaScript `undefined` (every comparison against
it is false, so the comparator returns 0). -/
inductive SortVal
  | num (n : Nat)
  | str (s : String)
  | undefVal
deriving Repr, DecidableEq

/-- `aValue < bValue` on the transformed sort values. -/
def svLt : SortVal → SortVal → Bool
  | .num a, .num b => a < b
  | .str a, .str b => jsStrLt a b
  | _, _ => false

/-- The transformed comparison value of a task for a sort field:
dates become milliseconds with missing/null mapped to the epoch
(`aValue ? new Date(aValue) : new Date(0)`), priority goes through
`priorityOrder`, title and order are used as-is. -/
def valOf (f : Option SortField) (t : Task) : SortVal :=
  match f with
  | none => .undefVal
  | some .title =>
    match t.title with
    | some s => .str s
    | none => .undefVal
  | some .createdAt => .num (t.createdAt.getD 0)
  | some .dueDate => .num (t.dueDate.join.getD 0)
  | some .priority => .num (priorityOrder t.priority)
  | some .order =>
    match t.order with
    | some n => .num n
    | none => .undefVal

/-- The sort comparator shared by both projections: -1/1 by `<` then `>`,
with the sign flipped when the direction is not the string asc; 0 otherwise. -/
def compareTasks (cfg : SortConfig) (a b : Task) : Int :=
  let av := valOf cfg.field a
  let bv := valOf cfg.field b
  if svLt av bv then (if cfg.direction == "asc" then -1 else 1)
  else if svLt bv av then (if cfg.direction == "asc" then 1 else -1)
  else 0

/-- The boolean order induced by the comparator, as consumed by `jsSort`. -/
def taskSortLe (cfg : SortConfig) (a b : Task) : Bool :=
  compareTasks cfg a b ≤ 0

/-- The free-text search predicate (title, optional description, any tag;
case-insensitive; `query` arrives already lower-cased). An absent `title` or
`tags` would throw in the source; it is modelled by the empty default. -/
def searchPred (query : String) (t : Task) : Bool :=
  jsIncludes (jsToLower (t.title.getD "")) query
  || (match t.description with
      | some d => jsIncludes (jsToLower d) query
      | none => false)
  || (t.tags.getD []).any (fun tg => jsIncludes (jsToLower tg) query)

/-- The hook's status filter body: completed / pending / anything else
passes. -/
def statusPred (status : String) (t : Task) : Bool :=
  if status == "completed" then t.completed.getD false
  else if status == "pending" then !(t.completed.getD false)
  else true

/-- The hook's `getFilteredTasks` (`useTodoManager`). The result pairs the
returned list with the contents of the store's `tasks` array after the call.
A `(list, aliased)` pair threads whether the current `filteredTasks` binding
still aliases the store's array: `[...tasks]` makes a fresh copy up front
(so it starts `false`), each `.filter` allocates a fresh array, and the final
`.sort` mutates its receiver in place — which is the store's array only when
the alias flag is still set. -/
def getFilteredTasksHook (tasks : List Task) (searchQuery : String)
    (filters : Filters) (sortConfig : SortConfig) : List Task × List Task :=
  let s0 : List Task × Bool := (tasks, false)
  let s1 := if jsTrim searchQuery ≠ "" then
      (s0.1.filter (searchPred (jsToLower searchQuery)), false)
    else s0
  let s2 := if filters.status ≠ "" ∧ filters.status ≠ "all" then
      (s1.1.filter (statusPred filters.status), false)
    else s1
  let s3 := if filters.priority ≠ "" then
      (s2.1.filter (fun t => t.priority == some filters.priority), false)
    else s2
  let s4 := if filters.category ≠ "" then
      (s3.1.filter (fun t => t.category == some filters.category), false)
    else s3
  let s5 := if filters.tags ≠ [] then
      (s4.1.filter (fun t => filters.tags.any (fun tg => (t.tags.getD []).contains tg)), false)
    else s4
  let sorted := jsSort (taskSortLe sortConfig) s5.1
  (sorted, if s5.2 then sorted else tasks)

/-- The Home page's `selectedCategory` filter body: the sentinel strings
completed / pending / high-priority, otherwise an exact category match. -/
def homeCategoryPred (cat : String) (t : Task) : Bool :=
  if cat == "completed" then t.completed.getD false
  else if cat == "pending" then !(t.completed.getD false)
  else if cat == "high-priority" then (t.priority == some "high") && !(t.completed.getD false)
  else t.category == some cat

/-- The Home page's `getFilteredTasks` (`src/client/pages/Home.jsx`). Unlike
the hook's version it starts with `let filteredTasks = tasks;` — an alias of
the store's array, not a copy — so when no filter branch reassigns it, the
in-place `.sort` at the end mutates the store's array itself. The pair again
returns (result list, store array contents after the call). -/
def getFilteredTasksHome (tasks : List Task) (searchQuery selectedCategory : String)
    (filters : Filters) (sortConfig : SortConfig) : List Task × List Task :=
  let s0 : List Task × Bool := (tasks, true)
  let s1 := if searchQuery ≠ "" then
      (s0.1.filter (searchPred (jsToLower searchQuery)), false)
    else s0
  let s2 := if selectedCategory ≠ "all" then
      (s1.1.filter (homeCategoryPred selectedCategory), false)
    else s1
  let s3 := if filters.priority ≠ "" then
      (s2.1.filter (fun t => t.priority == some filters.priority), false)
    else s2
  let s4 := if filters.status ≠ "" ∧ filters.status ≠ "all" then
      (s3.1.filter (fun t =>
        if filters.status == "completed" then t.completed.getD false
        else !(t.completed.getD false)), false)
    else s3
  match sortConfig.field with
  | some _ =>
    let sorted := jsSort (taskSortLe sortConfig) s4.1
    (sorted, if s4.2 then sorted else tasks)
  | none => (s4.1, tasks)

/-! ## The remote client (`src/client/services/todoApi.js`)

Each endpoint awaits one HTTP call; its outcome (`.ok` = 2xx response body,
`.error` = transport/non-2xx failure, as produced by the axios interceptor) is
the `http` parameter. The date strings of a response arrive as epoch
milliseconds in the model, so the string-to-date conversion itself is the
identity on the value. -/

/-- `transformTaskDates`: defaults missing `createdAt`/`updatedAt` to now,
normalises `dueDate` to an explicit value-or-null, defaults `subtasks` to an
empty list and stamps each subtask's `createdAt`. (`task.dueDate ? ... : null`
tests the truthiness of the serialized date string: present and non-null.) -/
def transformTaskDates (now : Nat) (t : Task) : Task :=
  { t with
    createdAt := some (t.createdAt.getD now)
    updatedAt := some (t.updatedAt.getD now)
    dueDate := some t.dueDate.join
    subtasks := some ((t.subtasks.getD []).map
      (fun s => { s with createdAt := some (s.createdAt.getD now) })) }

/-- One day in milliseconds, for the mock data's date offsets. -/
def dayMs : Nat := 24 * 60 * 60 * 1000

/-- `getMockTasks()`: the deterministic demo task list returned when the
backend is unreachable, dated relative to now (`Date.now()`). -/
def getMockTasks (now : Nat) : List Task :=
  [ { id := "1"
      title := some "Welcome to TaskFlow!"
      description := some "This is a demo task to showcase the todo manager features."
      completed := some false
      priority := some "high"
      tags := some ["demo", "welcome"]
      category := some "Getting Started"
      dueDate := some (some (now + 7 * dayMs))
      createdAt := some now
      updatedAt := some now
      subtasks := some
        [ { id := "sub1", taskId := some "1", title := some "Explore the interface",
            completed := some true, createdAt := some now, order := some 0 },
          { id := "sub2", taskId := some "1", title := some "Try adding a new task",
            completed := some false, createdAt := some now, order := some 1 } ]
      order := some 0 },
    { id := "2"
      title := some "Build amazing projects"
      description := some "Use this todo manager to organize your work and boost productivity."
      completed := some false
      priority := some "medium"
      tags := some ["productivity", "projects"]
      category := some "Work"
      dueDate := some none
      createdAt := some (now - 2 * dayMs)
      updatedAt := some now
      subtasks := some []
      order := some 1 },
    { id := "3"
      title := some "Learn React and modern web development"
      description := some "Master the latest technologies and frameworks."
      completed := some true
      priority := some "low"
      tags := some ["learning", "react", "javascript"]
      category := some "Study"
      dueDate := some (some (now - 1 * dayMs))
      createdAt := some (now - 5 * dayMs)
      updatedAt := some now
      subtasks := some
        [ { id := "sub3", taskId := some "3", title := some "Complete React tutorial",
            completed := some true, createdAt := some now, order := some 0 } ]
      order := some 2 },
    { id := "4"
      title := some "Prepare for Math Exam"
      description := some "Study calculus and linear algebra for the upcoming semester exam."
      completed := some false
      priority := some "high"
      tags := some ["math", "exam", "calculus"]
      category := some "Study"
      dueDate := some (some (now + 3 * dayMs))
      createdAt := some (now - 1 * dayMs)
      updatedAt := some now
      subtasks := some
        [ { id := "sub4", taskId := some "4", title := some "Review chapter 1-5",
            completed := some false, createdAt := some now, order := some 0 },
          { id := "sub5", taskId := some "4", title := some "Practice problems",
            completed := some false, createdAt := some now, order := some 1 } ]
      order := some 3 } ]

/-- `todoApi.getTasks`: maps the response through `transformTaskDates`; on any
failure it resolves with the mock list instead of rejecting. (The
`Array.isArray` guard is omitted: the `.ok` payload is already a list.) -/
def todoApiGetTasks (now : Nat) (http : Except String (List Task)) :
    Except String (List Task) :=
  match http with
  | .ok data => .ok (data.map (transformTaskDates now))
  | .error _ => .ok (getMockTasks now)

/-- The locally constructed task `todoApi.createTask` resolves with on
failure: `{id: Date.now().toString(), ...taskData, completed: false,
createdAt/updatedAt: now, subtasks: [], order: Date.now()}`. The literals
after the spread override any same-named patch field. -/
def fallbackCreatedTask (d : TaskPatch) (now : Nat) : Task :=
  { id := toString now
    title := d.title
    description := d.description
    completed := some false
    priority := d.priority
    category := d.category
    tags := d.tags
    dueDate := d.dueDate
    createdAt := some now
    updatedAt := some now
    subtasks := some []
    order := some now }

/-- `todoApi.createTask`: transforms the server's response on success; on
failure it resolves with `fallbackCreatedTask` instead of rejecting. -/
def todoApiCreateTask (d : TaskPatch) (now : Nat) (http : Except String Task) :
    Except String Task :=
  match http with
  | .ok response => .ok (transformTaskDates now response)
  | .error _ => .ok (fallbackCreatedTask d now)

/-- The object `todoApi.updateTask` resolves with on failure:
`{id: taskId, ...taskData, updatedAt: now}` — only the id, the patch's own
fields, and a fresh `updatedAt`; every other field is absent. -/
def fallbackUpdatedTask (taskId : String) (d : TaskPatch) (now : Nat) : Task :=
  { id := taskId
    title := d.title
    description := d.description
    completed := d.completed
    priority := d.priority
    category := d.category
    tags := d.tags
    dueDate := d.dueDate
    createdAt := none
    updatedAt := some now
    subtasks := none
    order := d.order }

/-- `todoApi.updateTask`: transforms the server's response on success; on
failure it resolves with `fallbackUpdatedTask` instead of rejecting. -/
def todoApiUpdateTask (taskId : String) (d : TaskPatch) (now : Nat)
    (http : Except String Task) : Except String Task :=
  match http with
  | .ok response => .ok (transformTaskDates now response)
  | .error _ => .ok (fallbackUpdatedTask taskId d now)

/-- `todoApi.deleteTask`: resolves in both cases — a failure is swallowed
(silently succeed for demo purposes). -/
def todoApiDeleteTask (http : Except String Unit) : Except String Unit :=
  match http with
  | .ok _ => .ok ()
  | .error _ => .ok ()

/-- `todoApi.reorderTasks`: transforms the response on success, but on failure
it re-throws (`throw error`) — the one task write endpoint with no local
fallback. (The `taskIds` argument only feeds the request body.) -/
def todoApiReorderTasks (now : Nat) (http : Except String (List Task)) :
    Except String (List Task) :=
  match http with
  | .ok data => .ok (data.map (transformTaskDates now))
  | .error e => .error e

/-- `todoApi.addSubtask`: returns the response subtask (its `createdAt`
date-string conversion is the identity in the model); failures re-throw. -/
def todoApiAddSubtask (http : Except String Subtask) : Except String Subtask :=
  match http with
  | .ok response => .ok response
  | .error e => .error e

/-- `todoApi.updateSubtask`: returns the response subtask; failures
re-throw. -/
def todoApiUpdateSubtask (http : Except String Subtask) : Except String Subtask :=
  match http with
  | .ok response => .ok response
  | .error e => .error e

/-- `todoApi.deleteSubtask`: resolves on success; failures re-throw. -/
def todoApiDeleteSubtask (http : Except String Unit) : Except String Unit :=
  match http with
  | .ok _ => .ok ()
  | .error e => .error e

/-! ## The task store (`useTodoManager` hook) -/

/-- The hook's state: the task collection, the loading flag, the current-error
slot, and the `taskflow-tasks` localStorage snapshot. -/
structure TodoState where
  tasks : List Task
  loading : Bool
  error : Option String
  snapshot : Option (List Task)
deriving Repr, DecidableEq

/-- The observable run of one store operation: the state right after the
optimistic update (while the remote call is pending), the state once the
operation settles, and the error it re-throws to its caller, if any. -/
structure OpResult where
  mid : TodoState
  final : TodoState
  thrown : Option String
deriving Repr, DecidableEq

/-- The per-task date revival applied when restoring the localStorage
snapshot in `loadTasks`' catch: `createdAt`/`updatedAt` are re-parsed (the
identity on the modelled value) and `dueDate` becomes value-or-null. -/
def restoreSnapshotTask (t : Task) : Task :=
  { t with dueDate := some t.dueDate.join }

/-- `loadTasks`: sets the loading flag and clears the error, then awaits
`todoApi.getTasks`. On success it replaces the collection wholesale; on
failure it records the error and, only when a snapshot exists, replaces the
collection with the revived snapshot — otherwise the collection is left as it
was. The loading flag is dropped either way. -/
def loadTasksRun (st : TodoState) (remote : Except String (List Task)) : OpResult :=
  let mid : TodoState := { st with loading := true, error := none }
  match remote with
  | .ok tasksData =>
    { mid := mid
      final := { mid with tasks := tasksData, loading := false }
      thrown := none }
  | .error e =>
    match st.snapshot with
    | some snap =>
      { mid := mid
        final := { mid with
                   error := some e
                   tasks := snap.map restoreSnapshotTask
                   loading := false }
        thrown := none }
    | none =>
      { mid := mid
        final := { mid with error := some e, loading := false }
        thrown := none }

/-- `temp-${Date.now()}` — the provisional id minted by `addTask`. -/
def tempId (now : Nat) : String :=
  "temp-" ++ toString now

/-- The provisional task `addTask` builds before calling the server:
`{id: tempId, ...taskData, completed: false, createdAt/updatedAt: now,
subtasks: [], order: tasks.length}`. The literals after the spread override
any same-named patch field; `count` is the collection size before
insertion. -/
def mkProvisionalTask (now : Nat) (d : TaskPatch) (count : Nat) : Task :=
  { id := tempId now
    title := d.title
    description := d.description
    completed := some false
    priority := d.priority
    category := d.category
    tags := d.tags
    dueDate := d.dueDate
    createdAt := some now
    updatedAt := some now
    subtasks := some []
    order := some count }

/-- `addTask(taskData)`: prepends the provisional task (optimistic), then
awaits `todoApi.createTask` (`remote`). On success the provisional entry is
replaced by the confirmed task and the snapshot is written from the stale
`tasks` closure. On rejection the catch awaits `todoApi.createTask` a second
time (`remote2`); that resolved object is truthy, so it replaces the
provisional entry (the revert-and-record branch is unreachable on a resolved
object); if the second call itself rejects, the error escapes the catch. -/
def addTaskRun (st : TodoState) (now : Nat) (d : TaskPatch)
    (remote remote2 : Except String Task) : OpResult :=
  let newTask := mkProvisionalTask now d st.tasks.length
  let mid : TodoState :=
    { st with tasks := newTask :: st.tasks, loading := true, error := none }
  match remote with
  | .ok createdTask =>
    { mid := mid
      final := { mid with
                 tasks := replaceById (tempId now) createdTask mid.tasks
                 snapshot := some (createdTask :: st.tasks)
                 loading := false }
      thrown := none }
  | .error _ =>
    match remote2 with
    | .ok createdTask =>
      { mid := mid
        final := { mid with
                   tasks := replaceById (tempId now) createdTask mid.tasks
                   loading := false }
        thrown := none }
    | .error e2 =>
      { mid := mid
        final := { mid with loading := false }
        thrown := some e2 }

/-- `{...originalTask, ...updateData, updatedAt: now}` — the merged
optimistic version built by `updateTask`. When `originalTask` is `undefined`
the merged object has no `id`; that value never enters the store (the
replacement map then matches no task), so its `id` is represented by
`taskId`. -/
def mergeTask (orig : Option Task) (p : TaskPatch) (now : Nat) (taskId : String) : Task :=
  match orig with
  | some t =>
    { id := t.id
      title := p.title <|> t.title
      description := p.description <|> t.description
      completed := p.completed <|> t.completed
      priority := p.priority <|> t.priority
      category := p.category <|> t.category
      tags := p.tags <|> t.tags
      dueDate := p.dueDate <|> t.dueDate
      createdAt := t.createdAt
      updatedAt := some now
      subtasks := t.subtasks
      order := p.order <|> t.order }
  | none =>
    { id := taskId
      title := p.title
      description := p.description
      completed := p.completed
      priority := p.priority
      category := p.category
      tags := p.tags
      dueDate := p.dueDate
      createdAt := none
      updatedAt := some now
      subtasks := none
      order := p.order }

/-- `updateTask(taskId, updateData)`: applies the merged optimistic version
immediately, then awaits `todoApi.updateTask` (`remote`). On success every
task with the id is replaced by the saved task and the snapshot is written
from the stale `tasks` closure. On rejection the optimistic version is kept
(no rollback), the failure is not recorded in the error slot, nothing is
re-thrown, and the snapshot is still written with the optimistic version. -/
def updateTaskRun (st : TodoState) (now : Nat) (taskId : String) (p : TaskPatch)
    (remote : Except String Task) : OpResult :=
  let originalTask := st.tasks.find? (fun t => t.id == taskId)
  let updatedTask := mergeTask originalTask p now taskId
  let mid : TodoState :=
    { st with
      tasks := replaceById taskId updatedTask st.tasks
      loading := true
      error := none }
  match remote with
  | .ok savedTask =>
    { mid := mid
      final := { mid with
                 tasks := replaceById taskId savedTask mid.tasks
                 snapshot := some (replaceById taskId savedTask st.tasks)
                 loading := false }
      thrown := none }
  | .error _ =>
    { mid := mid
      final := { mid with
                 snapshot := some (replaceById taskId updatedTask st.tasks)
                 loading := false }
      thrown := none }

/-- `deleteTask(taskId)`: removes the task immediately (optimistic), then
awaits `todoApi.deleteTask`. On success the snapshot is written (from the
stale `tasks` closure, same filtered list). On rejection the pre-operation
collection is restored, the failure is recorded in the error slot and
re-thrown. -/
def deleteTaskRun (st : TodoState) (taskId : String)
    (remote : Except String Unit) : OpResult :=
  let mid : TodoState :=
    { st with
      tasks := st.tasks.filter (fun t => t.id != taskId)
      loading := true
      error := none }
  match remote with
  | .ok _ =>
    { mid := mid
      final := { mid with
                 snapshot := some (st.tasks.filter (fun t => t.id != taskId))
                 loading := false }
      thrown := none }
  | .error e =>
    { mid := mid
      final := { mid with tasks := st.tasks, error := some e, loading := false }
      thrown := some e }

/-- `toggleTaskComplete(taskId)`: returns untouched when no task has the id;
otherwise delegates to `updateTask` with `{completed: !task.completed}`
(JavaScript `!` on a possibly-absent field: absent reads as false). -/
def toggleTaskCompleteRun (st : TodoState) (now : Nat) (taskId : String)
    (remote : Except String Task) : OpResult :=
  match st.tasks.find? (fun t => t.id == taskId) with
  | none => { mid := st, final := st, thrown := none }
  | some task =>
    updateTaskRun st now taskId { completed := some (!(task.completed.getD false)) } remote

/-- `reorderTasks(newTaskOrder)`: installs the caller's ordered list
immediately (optimistic), then awaits `todoApi.reorderTasks`. On success the
server's list replaces the collection and is persisted. On rejection the
pre-operation collection is restored, the failure is recorded in the error
slot and re-thrown. -/
def reorderTasksRun (st : TodoState) (newTaskOrder : List Task)
    (remote : Except String (List Task)) : OpResult :=
  let mid : TodoState :=
    { st with tasks := newTaskOrder, loading := true, error := none }
  match remote with
  | .ok reorderedTasks =>
    { mid := mid
      final := { mid with
                 tasks := reorderedTasks
                 snapshot := some reorderedTasks
                 loading := false }
      thrown := none }
  | .error e =>
    { mid := mid
      final := { mid with tasks := st.tasks, error := some e, loading := false }
      thrown := some e }

/-- `addSubtask(taskId, subtaskTitle)`: no optimistic update — on success the
new subtask is appended to the parent's `subtasks` (the source spreads
`task.subtasks`, which presumes the field is a list; an absent field is
modelled by the empty default); on rejection the failure is recorded in the
error slot and re-thrown, leaving the collection untouched. The title only
feeds the request body. -/
def addSubtaskRun (st : TodoState) (taskId : String)
    (remote : Except String Subtask) : OpResult :=
  let mid : TodoState := { st with loading := true, error := none }
  match remote with
  | .ok newSubtask =>
    { mid := mid
      final := { mid with
                 tasks := st.tasks.map (fun t =>
                   if t.id == taskId then
                     { t with subtasks := some ((t.subtasks.getD []) ++ [newSubtask]) }
                   else t)
                 loading := false }
      thrown := none }
  | .error e =>
    { mid := mid
      final := { mid with error := some e, loading := false }
      thrown := some e }

/-- `updateSubtask(taskId, subtaskId, updateData)`: on success the matching
subtask of the parent is replaced by the server's version; on rejection the
failure is recorded in the error slot and re-thrown, leaving the collection
untouched. -/
def updateSubtaskRun (st : TodoState) (taskId subtaskId : String)
    (remote : Except String Subtask) : OpResult :=
  let mid : TodoState := { st with loading := true, error := none }
  match remote with
  | .ok updatedSubtask =>
    { mid := mid
      final := { mid with
                 tasks := st.tasks.map (fun t =>
                   if t.id == taskId then
                     { t with subtasks := some ((t.subtasks.getD []).map (fun s =>
                         if s.id == subtaskId then updatedSubtask else s)) }
                   else t)
                 loading := false }
      thrown := none }
  | .error e =>
    { mid := mid
      final := { mid with error := some e, loading := false }
      thrown := some e }

/-- `deleteSubtask(taskId, subtaskId)`: on success the matching subtask is
filtered out of the parent; on rejection the failure is recorded in the error
slot and re-thrown, leaving the collection untouched. -/
def deleteSubtaskRun (st : TodoState) (taskId subtaskId : String)
    (remote : Except String Unit) : OpResult :=
  let mid : TodoState := { st with loading := true, error := none }
  match remote with
  | .ok _ =>
    { mid := mid
      final := { mid with
                 tasks := st.tasks.map (fun t =>
                   if t.id == taskId then
                     { t with subtasks := some ((t.subtasks.getD []).filter
                         (fun s => s.id != subtaskId)) }
                   else t)
                 loading := false }
      thrown := none }
  | .error e =>
    { mid := mid
      final := { mid with error := some e, loading := false }
      thrown := some e }

/-! ## Helper lemmas -/

theorem find?_id_eq {l : List Task} {x : String} {t : Task}
    (h : l.find? (fun t => t.id == x) = some t) : t.id = x := by
  simpa using List.find?_some h

theorem replaceById_eq_of_forall {l : List Task} {x : String} {c : Task}
    (h : ∀ t ∈ l, t.id ≠ x) : replaceById x c l = l := by
  induction l with
  | nil => rfl
  | cons a as ih =>
    have ha : ¬ (a.id == x) = true := by
      simpa using h a (List.mem_cons_self a as)
    have has : ∀ t ∈ as, t.id ≠ x := fun t ht => h t (List.mem_cons_of_mem _ ht)
    simp only [replaceById, List.map_cons, if_neg ha]
    exact congrArg _ (ih has)

theorem find?_replaceById {l : List Task} {x : String} {c : Task}
    (hc : c.id = x) (h : (l.find? (fun t => t.id == x)).isSome) :
    (replaceById x c l).find? (fun t => t.id == x) = some c := by
  induction l with
  | nil => simp [List.find?] at h
  | cons a as ih =>
    by_cases ha : (a.id == x) = true
    · simp only [replaceById, List.map_cons, if_pos ha]
      exact List.find?_cons_of_pos (p := fun (t : Task) => t.id == x) _ (by simpa using hc)
    · simp only [replaceById, List.map_cons, if_neg ha]
      rw [List.find?_cons_of_neg (p := fun (t : Task) => t.id == x) _ ha]
      rw [List.find?_cons_of_neg (p := fun (t : Task) => t.id == x) _ ha] at h
      exact ih h

theorem find?_isSome_of_find? {l : List Task} {x : String} {t : Task}
    (h : l.find? (fun t => t.id == x) = some t) :
    (l.find? (fun t => t.id == x)).isSome := by
  simp [h]

/-! ## Claim theorems -/

/-- C1: for a task id present in the collection, `updateTask` immediately
installs the merged optimistic version (the found task overlaid with the
patch, `updatedAt` set to now); when the remote update call rejects, that
optimistic version is retained (the final collection equals the optimistic
one), the failure is not recorded in the current-error slot, and nothing is
re-thrown. -/
theorem update_failure_retains_optimistic (st : TodoState) (now : Nat)
    (taskId : String) (p : TaskPatch) (e : String) (t0 : Task)
    (h : st.tasks.find? (fun t => t.id == taskId) = some t0) :
    (updateTaskRun st now taskId p (.error e)).mid.tasks
      = replaceById taskId (mergeTask (some t0) p now taskId) st.tasks ∧
    (mergeTask (some t0) p now taskId).updatedAt = some now ∧
    (updateTaskRun st now taskId p (.error e)).final.tasks
      = (updateTaskRun st now taskId p (.error e)).mid.tasks ∧
    (updateTaskRun st now taskId p (.error e)).final.error = none ∧
    (updateTaskRun st now taskId p (.error e)).thrown = none := by
  refine ⟨?_, ?_, ?_, ?_, ?_⟩ <;> simp [updateTaskRun, h, mergeTask]

/-- Witness for C1 at a concrete store. -/
theorem update_failure_retains_optimistic_witness :
    ([⟨"1", some "alpha", none, some false, none, none, none, none, none, none,
        some [], some 0⟩] : List Task).find? (fun t => t.id == "1")
      = some ⟨"1", some "alpha", none, some false, none, none, none, none, none,
          none, some [], some 0⟩ ∧
    (updateTaskRun ⟨[⟨"1", some "alpha", none, some false, none, none, none, none,
        none, none, some [], some 0⟩], false, none, none⟩ 5 "1"
        { completed := some true } (.error "network")).final.error = none :=
  ⟨by decide,
   (update_failure_retains_optimistic
      ⟨[⟨"1", some "alpha", none, some false, none, none, none, none, none, none,
          some [], some 0⟩], false, none, none⟩ 5 "1" { completed := some true }
      "network"
      ⟨"1", some "alpha", none, some false, none, none, none, none, none, none,
        some [], some 0⟩ (by decide)).2.2.2.1⟩

/-- C2: when the remote call of `deleteTask` or `reorderTasks` rejects, the
collection is restored to exactly its pre-operation value, the failure is
recorded in the current-error slot, and the error is re-thrown to the
caller. -/
theorem delete_reorder_rollback (st : TodoState) (taskId : String)
    (newTaskOrder : List Task) (e : String) :
    (deleteTaskRun st taskId (.error e)).final.tasks = st.tasks ∧
    (deleteTaskRun st taskId (.error e)).final.error = some e ∧
    (deleteTaskRun st taskId (.error e)).thrown = some e ∧
    (reorderTasksRun st newTaskOrder (.error e)).final.tasks = st.tasks ∧
    (reorderTasksRun st newTaskOrder (.error e)).final.error = some e ∧
    (reorderTasksRun st newTaskOrder (.error e)).thrown = some e :=
  ⟨rfl, rfl, rfl, rfl, rfl, rfl⟩

/-- C3: when the HTTP update fails, `todoApi.updateTask` resolves with the
object holding only the task id, the patch's fields and a fresh `updatedAt`;
the store's success path then replaces the whole stored task with it, so the
task in the collection has `title`/`description`/`completed`/`tags`/`order`/
`category` exactly as in the patch (absent when not patched) and no
`createdAt` or `subtasks` at all. -/
theorem offline_update_replaces_task_with_patch_only (st : TodoState)
    (now : Nat) (taskId : String) (p : TaskPatch) (e : String) (t0 : Task)
    (h : st.tasks.find? (fun t => t.id == taskId) = some t0) :
    todoApiUpdateTask taskId p now (.error e)
      = .ok (fallbackUpdatedTask taskId p now) ∧
    ((updateTaskRun st now taskId p
        (todoApiUpdateTask taskId p now (.error e))).final.tasks.find?
        (fun t => t.id == taskId)) = some (fallbackUpdatedTask taskId p now) ∧
    (fallbackUpdatedTask taskId p now).title = p.title ∧
    (fallbackUpdatedTask taskId p now).description = p.description ∧
    (fallbackUpdatedTask taskId p now).completed = p.completed ∧
    (fallbackUpdatedTask taskId p now).priority = p.priority ∧
    (fallbackUpdatedTask taskId p now).category = p.category ∧
    (fallbackUpdatedTask taskId p now).tags = p.tags ∧
    (fallbackUpdatedTask taskId p now).order = p.order ∧
    (fallbackUpdatedTask taskId p now).createdAt = none ∧
    (fallbackUpdatedTask taskId p now).subtasks = none ∧
    (fallbackUpdatedTask taskId p now).updatedAt = some now := by
  have ht0 : t0.id = taskId := find?_id_eq h
  have hmergeId : (mergeTask (some t0) p now taskId).id = taskId := by
    simpa [mergeTask] using ht0
  have hmid : ((replaceById taskId (mergeTask (some t0) p now taskId)
      st.tasks).find? (fun t => t.id == taskId)).isSome := by
    rw [find?_replaceById hmergeId (find?_isSome_of_find? h)]
    rfl
  refine ⟨rfl, ?_, rfl, rfl, rfl, rfl, rfl, rfl, rfl, rfl, rfl, rfl⟩
  show ((updateTaskRun st now taskId p
      (.ok (fallbackUpdatedTask taskId p now))).final.tasks.find?
      (fun t => t.id == taskId)) = some (fallbackUpdatedTask taskId p now)
  simp only [updateTaskRun, h]
  exact find?_replaceById rfl hmid

/-- Witness for C3 at a concrete store (the stored task's `title` and
`subtasks` are clobbered by an offline patch touching only `completed`). -/
theorem offline_update_replaces_task_with_patch_only_witness :
    ([⟨"7", some "keep me", none, some false, none, none, some ["x"], none,
        some 3, some 3, some [], some 0⟩] : List Task).find?
        (fun t => t.id == "7")
      = some ⟨"7", some "keep me", none, some false, none, none, some ["x"],
          none, some 3, some 3, some [], some 0⟩ ∧
    ((updateTaskRun ⟨[⟨"7", some "keep me", none, some false, none, none,
        some ["x"], none, some 3, some 3, some [], some 0⟩], false, none, none⟩
        9 "7" { completed := some true }
        (todoApiUpdateTask "7" { completed := some true } 9
          (.error "offline"))).final.tasks.find? (fun t => t.id == "7"))
      = some (fallbackUpdatedTask "7" { completed := some true } 9) :=
  ⟨by decide,
   (offline_update_replaces_task_with_patch_only
      ⟨[⟨"7", some "keep me", none, some false, none, none, some ["x"], none,
          some 3, some 3, some [], some 0⟩], false, none, none⟩ 9 "7"
      { completed := some true } "offline"
      ⟨"7", some "keep me", none, some false, none, none, some ["x"], none,
        some 3, some 3, some [], some 0⟩ (by decide)).2.1⟩

/-- C4: `addTask` first prepends a provisional task with the temporary id,
`completed = false`, empty subtasks and `order` equal to the collection size
before insertion; once the remote create resolves with a confirmed task
carrying the input's fields (and the temporary id is fresh for the prior
collection), the final collection is exactly the confirmed task in front of
the prior collection — one new entry, the provisional one replaced by its
temporary id. -/
theorem add_task_provisional_then_confirmed (st : TodoState) (now : Nat)
    (d : TaskPatch) (ct : Task) (r2 : Except String Task)
    (hfresh : ∀ t ∈ st.tasks, t.id ≠ tempId now)
    (h1 : ct.title = d.title) (h2 : ct.description = d.description)
    (h3 : ct.priority = d.priority) (h4 : ct.tags = d.tags)
    (h5 : ct.category = d.category) (h6 : ct.dueDate = d.dueDate)
    (h7 : ct.completed = some false) (h8 : ct.subtasks = some []) :
    (addTaskRun st now d (.ok ct) r2).mid.tasks
      = mkProvisionalTask now d st.tasks.length :: st.tasks ∧
    (mkProvisionalTask now d st.tasks.length).id = tempId now ∧
    (mkProvisionalTask now d st.tasks.length).completed = some false ∧
    (mkProvisionalTask now d st.tasks.length).subtasks = some [] ∧
    (mkProvisionalTask now d st.tasks.length).order = some st.tasks.length ∧
    (addTaskRun st now d (.ok ct) r2).final.tasks = ct :: st.tasks ∧
    (addTaskRun st now d (.ok ct) r2).final.error = none ∧
    ct.title = d.title ∧ ct.description = d.description ∧
    ct.priority = d.priority ∧ ct.tags = d.tags ∧ ct.category = d.category ∧
    ct.dueDate = d.dueDate ∧ ct.completed = some false ∧
    ct.subtasks = some [] := by
  refine ⟨rfl, rfl, rfl, rfl, rfl, ?_, rfl, h1, h2, h3, h4, h5, h6, h7, h8⟩
  show replaceById (tempId now) ct
      (mkProvisionalTask now d st.tasks.length :: st.tasks) = ct :: st.tasks
  simp only [replaceById, List.map_cons]
  rw [if_pos (by simp [mkProvisionalTask])]
  exact congrArg _ (replaceById_eq_of_forall hfresh)

/-- Witness for C4 at a concrete input (empty prior collection, confirmed
task echoing the input). -/
theorem add_task_provisional_then_confirmed_witness :
    (∀ t ∈ ([] : List Task), t.id ≠ tempId 5) ∧
    (addTaskRun ⟨[], false, none, none⟩ 5 { title := some "write spec" }
        (.ok (fallbackCreatedTask { title := some "write spec" } 6))
        (.error "unused")).final.tasks
      = [fallbackCreatedTask { title := some "write spec" } 6] :=
  ⟨by decide,
   (add_task_provisional_then_confirmed ⟨[], false, none, none⟩ 5
      { title := some "write spec" }
      (fallbackCreatedTask { title := some "write spec" } 6) (.error "unused")
      (by decide) rfl rfl rfl rfl rfl rfl rfl rfl).2.2.2.2.2.1⟩

/-- A store with a non-empty collection and no localStorage snapshot, as after
a retry of `loadTasks` from a previously populated session. -/
def stOneTaskNoSnapshot : TodoState :=
  { tasks := [{ id := "a", title := some "still here" }]
    loading := false
    error := none
    snapshot := none }

/-- C5 counterexample: when `loadTasks` fails with no snapshot and the prior
collection is non-empty, the collection is NOT left empty — the catch branch
simply does nothing to it, so the prior tasks remain. -/
theorem load_failure_without_snapshot_keeps_collection :
    (loadTasksRun stOneTaskNoSnapshot (.error "load failed")).final.tasks
      = [{ id := "a", title := some "still here" }] ∧
    (loadTasksRun stOneTaskNoSnapshot (.error "load failed")).final.tasks
      ≠ ([] : List Task) := by
  constructor
  · rfl
  · decide

/-- C5 amended: `loadTasks` sets the loading flag for the call's duration; on
success it replaces the collection wholesale with the fetched tasks; on
failure it records the failure in the current-error slot and restores the
revived snapshot when one exists — and when no snapshot exists it leaves the
collection unchanged (so it is empty only if it was already empty). -/
theorem load_tasks_spec (st : TodoState) (ts : List Task) (e : String) :
    (loadTasksRun st (.ok ts)).mid.loading = true ∧
    (loadTasksRun st (.ok ts)).final.loading = false ∧
    (loadTasksRun st (.ok ts)).final.tasks = ts ∧
    (loadTasksRun st (.ok ts)).final.error = none ∧
    (loadTasksRun st (.error e)).mid.loading = true ∧
    (loadTasksRun st (.error e)).final.loading = false ∧
    (loadTasksRun st (.error e)).final.error = some e ∧
    (∀ snap, st.snapshot = some snap →
      (loadTasksRun st (.error e)).final.tasks = snap.map restoreSnapshotTask) ∧
    (st.snapshot = none → (loadTasksRun st (.error e)).final.tasks = st.tasks) := by
  refine ⟨rfl, rfl, rfl, rfl, ?_, ?_, ?_, ?_, ?_⟩ <;>
    cases hs : st.snapshot <;> simp [loadTasksRun, hs]

/-- Witness for C5 (amended) at a concrete store with no snapshot. -/
theorem load_tasks_spec_witness :
    stOneTaskNoSnapshot.snapshot = none ∧
    (loadTasksRun stOneTaskNoSnapshot (.error "load failed")).final.tasks
      = stOneTaskNoSnapshot.tasks :=
  ⟨rfl, (load_tasks_spec stOneTaskNoSnapshot [] "load failed").2.2.2.2.2.2.2.2 rfl⟩

/-- C7 counterexample: a failing `addSubtask` DOES mutate the current-error
slot — the catch performs `setError(err)` before re-throwing, so the slot
goes from `none` to the failure. -/
theorem subtask_failure_writes_error_slot :
    (addSubtaskRun stOneTaskNoSnapshot "a" (.error "boom")).final.error
      = some "boom" ∧
    (addSubtaskRun stOneTaskNoSnapshot "a" (.error "boom")).final.error
      ≠ stOneTaskNoSnapshot.error := by
  constructor
  · rfl
  · decide

/-- C7 amended: when the remote call of `addSubtask`, `updateSubtask` or
`deleteSubtask` rejects, the failure propagates to the caller as a rejected
call and the task collection (in particular every parent's `subtasks`) is
left unchanged — but the failure IS recorded in the current-error slot,
unlike what the claim states. -/
theorem subtask_failures_propagate (st : TodoState)
    (taskId subtaskId : String) (e : String) :
    (addSubtaskRun st taskId (.error e)).thrown = some e ∧
    (addSubtaskRun st taskId (.error e)).final.tasks = st.tasks ∧
    (addSubtaskRun st taskId (.error e)).final.error = some e ∧
    (updateSubtaskRun st taskId subtaskId (.error e)).thrown = some e ∧
    (updateSubtaskRun st taskId subtaskId (.error e)).final.tasks = st.tasks ∧
    (updateSubtaskRun st taskId subtaskId (.error e)).final.error = some e ∧
    (deleteSubtaskRun st taskId subtaskId (.error e)).thrown = some e ∧
    (deleteSubtaskRun st taskId subtaskId (.error e)).final.tasks = st.tasks ∧
    (deleteSubtaskRun st taskId subtaskId (.error e)).final.error = some e :=
  ⟨rfl, rfl, rfl, rfl, rfl, rfl, rfl, rfl, rfl⟩

/-- C8 counterexample: `todoApi.reorderTasks` does NOT resolve on a transport
failure — the catch re-throws, so the rejection propagates to the Task
Store. -/
theorem reorder_api_rejects_on_failure :
    todoApiReorderTasks 0 (.error "network") = .error "network" ∧
    ¬ ∃ v, todoApiReorderTasks 0 (.error "network") = .ok v := by
  constructor
  · rfl
  · rintro ⟨v, hv⟩
    simp [todoApiReorderTasks] at hv

/-- C8 amended: on a transport or non-2xx failure, `getTasks` resolves with
the deterministic mock list, `createTask` and `updateTask` resolve with their
best-effort locally constructed objects and `deleteTask` resolves silently —
but `reorderTasks` re-throws the failure, so reorder calls DO propagate
rejections to the Task Store. -/
theorem api_failure_resolution (now : Nat) (e : String) (d : TaskPatch)
    (taskId : String) (p : TaskPatch) :
    todoApiGetTasks now (.error e) = .ok (getMockTasks now) ∧
    todoApiCreateTask d now (.error e) = .ok (fallbackCreatedTask d now) ∧
    todoApiUpdateTask taskId p now (.error e)
      = .ok (fallbackUpdatedTask taskId p now) ∧
    todoApiDeleteTask (.error e) = .ok () ∧
    todoApiReorderTasks now (.error e) = .error e :=
  ⟨rfl, rfl, rfl, rfl, rfl⟩

/-- Epoch milliseconds of 2024-01-01T00:00:00Z. -/
def msJan2024 : Nat := 1704067200000

/-- Epoch milliseconds of 2024-03-01T00:00:00Z. -/
def msMar2024 : Nat := 1709251200000

/-- A task with no due date. -/
def taskDueNone : Task := { id := "n", title := some "no due date" }

/-- A task due 2024-01-01. -/
def taskDueJan : Task :=
  { id := "j", title := some "due january", dueDate := some (some msJan2024) }

/-- A task due 2024-03-01. -/
def taskDueMar : Task :=
  { id := "m", title := some "due march", dueDate := some (some msMar2024) }

/-- Ascending sort by due date, no search and no filters. -/
def cfgDueAsc : SortConfig := { field := some .dueDate, direction := "asc" }

/-- C10: under a dueDate sort, a task with a missing (or null) due date is
compared exactly as if its due date were the epoch — on either side of the
comparator — and consequently the projection sorts the concrete tasks with
due dates [march, january, none] ascending into [none, january, march]. -/
theorem due_date_missing_sorts_as_epoch :
    (∀ (cfg : SortConfig) (a b : Task), cfg.field = some SortField.dueDate →
      a.dueDate.join = none →
      compareTasks cfg a b = compareTasks cfg { a with dueDate := some (some 0) } b ∧
      compareTasks cfg b a = compareTasks cfg b { a with dueDate := some (some 0) }) ∧
    (getFilteredTasksHook [taskDueMar, taskDueJan, taskDueNone] "" {} cfgDueAsc).1
      = [taskDueNone, taskDueJan, taskDueMar] := by
  constructor
  · intro cfg a b hf ha
    have ha2 : (a.dueDate.bind fun x => x) = none := by
      simpa [Option.join] using ha
    constructor <;> simp [compareTasks, valOf, hf, Option.join, ha2]
  · decide

/-- Witness for C10: the epoch-comparison fact applied at the concrete
no-due-date task. -/
theorem due_date_missing_sorts_as_epoch_witness :
    compareTasks cfgDueAsc taskDueNone taskDueJan
      = compareTasks cfgDueAsc { taskDueNone with dueDate := some (some 0) }
          taskDueJan :=
  (due_date_missing_sorts_as_epoch.1 cfgDueAsc taskDueNone taskDueJan rfl rfl).1

/-- A store collection out of title order, for the Home projection. -/
def homeStoreTasks : List Task :=
  [{ id := "b", title := some "beta" }, { id := "a", title := some "alpha" }]

/-- Ascending sort by title. -/
def cfgTitleAsc : SortConfig := { field := some .title, direction := "asc" }

/-- C6 counterexample: the Home page's `getFilteredTasks`, called with no
search text, category all, no priority/status filter and an active sort
field, sorts the store's own array in place — after the call the stored
array's element order is the sorted order, not the original one. -/
theorem home_projection_mutates_store :
    (getFilteredTasksHome homeStoreTasks "" "all" {} cfgTitleAsc).2
      = [{ id := "a", title := some "alpha" }, { id := "b", title := some "beta" }] ∧
    (getFilteredTasksHome homeStoreTasks "" "all" {} cfgTitleAsc).2
      ≠ homeStoreTasks := by
  constructor
  · decide
  · decide

/-- C6 amended: the hook's `getFilteredTasks` is pure — it copies the
collection before sorting, so the store's array is unchanged for every input;
the Home page's `getFilteredTasks` leaves the store's array unchanged only
when some filter branch executes (non-empty search, a category other than
all, a priority filter, an effective status filter) or no sort field is set —
otherwise it sorts the store's array in place (see the counterexample). -/
theorem projection_store_frame :
    (∀ (tasks : List Task) (q : String) (f : Filters) (sc : SortConfig),
      (getFilteredTasksHook tasks q f sc).2 = tasks) ∧
    (∀ (tasks : List Task) (q cat : String) (f : Filters) (sc : SortConfig),
      q ≠ "" ∨ cat ≠ "all" ∨ f.priority ≠ "" ∨
        (f.status ≠ "" ∧ f.status ≠ "all") ∨ sc.field = none →
      (getFilteredTasksHome tasks q cat f sc).2 = tasks) := by
  constructor
  · intro tasks q f sc
    simp only [getFilteredTasksHook]
    split_ifs <;> first | rfl | simp_all
  · intro tasks q cat f sc hcase
    obtain ⟨field, dir⟩ := sc
    cases field with
    | none =>
      simp [getFilteredTasksHome]
    | some fld =>
      simp only [getFilteredTasksHome]
      split_ifs <;> first | rfl | simp_all

/-- Witness for C6 (amended): both frame facts at concrete inputs, the Home
one with a non-empty search query. -/
theorem projection_store_frame_witness :
    (getFilteredTasksHook homeStoreTasks "" {} cfgTitleAsc).2 = homeStoreTasks ∧
    (getFilteredTasksHome homeStoreTasks "beta" "all" {} cfgTitleAsc).2
      = homeStoreTasks :=
  ⟨projection_store_frame.1 homeStoreTasks "" {} cfgTitleAsc,
   projection_store_frame.2 homeStoreTasks "beta" "all" {} cfgTitleAsc
     (Or.inl (by decide))⟩

/-- A remote update outcome echoes the patch when, if it resolved, the
returned task carries the patched id and completed value (a rejection
vacuously echoes — the store then keeps its own optimistic copy). -/
def EchoOk (taskId : String) (b : Bool) : Except String Task → Prop
  | .ok s => s.id = taskId ∧ s.completed = some b
  | .error _ => True

theorem updateRun_find_completed (st : TodoState) (now : Nat) (taskId : String)
    (p : TaskPatch) (b : Bool) (hp : p.completed = some b) (t0 : Task)
    (h : st.tasks.find? (fun t => t.id == taskId) = some t0)
    (r : Except String Task) (hecho : EchoOk taskId b r) :
    ∃ cur, (updateTaskRun st now taskId p r).final.tasks.find?
        (fun t => t.id == taskId) = some cur ∧ cur.id = taskId ∧
        cur.completed = some b := by
  have ht0 : t0.id = taskId := find?_id_eq h
  have hmid : ((replaceById taskId (mergeTask (some t0) p now taskId)
      st.tasks).find? (fun t => t.id == taskId))
        = some (mergeTask (some t0) p now taskId) :=
    find?_replaceById (by simpa [mergeTask] using ht0) (find?_isSome_of_find? h)
  cases r with
  | error e =>
    refine ⟨mergeTask (some t0) p now taskId, ?_,
      by simpa [mergeTask] using ht0, ?_⟩
    · simp only [updateTaskRun, h]
      exact hmid
    · simp [mergeTask, hp]
  | ok s =>
    obtain ⟨hsid, hsc⟩ := hecho
    refine ⟨s, ?_, hsid, hsc⟩
    simp only [updateTaskRun, h]
    exact find?_replaceById hsid (by simp [hmid])

/-- C9: `toggleTaskComplete` is a silent no-op when the id is absent, and for
a present id it is exactly `updateTask(taskId, {completed: !current})`;
moreover toggling twice in succession (with each remote outcome either a
rejection or a response echoing the patched completed value) returns the
task's completed field to its original value. -/
theorem toggle_complete_spec (st : TodoState) (now now2 : Nat)
    (taskId : String) (r1 r2 : Except String Task) :
    (st.tasks.find? (fun t => t.id == taskId) = none →
      toggleTaskCompleteRun st now taskId r1 = ⟨st, st, none⟩) ∧
    (∀ t0, st.tasks.find? (fun t => t.id == taskId) = some t0 →
      toggleTaskCompleteRun st now taskId r1
        = updateTaskRun st now taskId
            { completed := some (!(t0.completed.getD false)) } r1) ∧
    (∀ t0 c, st.tasks.find? (fun t => t.id == taskId) = some t0 →
      t0.completed = some c → EchoOk taskId (!c) r1 → EchoOk taskId c r2 →
      ∃ t2, (toggleTaskCompleteRun (toggleTaskCompleteRun st now taskId r1).final
          now2 taskId r2).final.tasks.find? (fun t => t.id == taskId)
            = some t2 ∧
        t2.completed = t0.completed) := by
  refine ⟨?_, ?_, ?_⟩
  · intro h
    simp [toggleTaskCompleteRun, h]
  · intro t0 h
    simp [toggleTaskCompleteRun, h]
  · intro t0 c h hc hecho1 hecho2
    have h1 : toggleTaskCompleteRun st now taskId r1
        = updateTaskRun st now taskId
            { completed := some (!(t0.completed.getD false)) } r1 := by
      simp [toggleTaskCompleteRun, h]
    have hp1 : ({ completed := some (!(t0.completed.getD false)) } :
        TaskPatch).completed = some (!c) := by
      simp [hc]
    obtain ⟨cur, hcur, hcurid, hcurc⟩ :=
      updateRun_find_completed st now taskId _ (!c) hp1 t0 h r1 hecho1
    rw [h1]
    have h2 : toggleTaskCompleteRun (updateTaskRun st now taskId
          { completed := some (!(t0.completed.getD false)) } r1).final now2
          taskId r2
        = updateTaskRun (updateTaskRun st now taskId
            { completed := some (!(t0.completed.getD false)) } r1).final now2
            taskId { completed := some (!(cur.completed.getD false)) } r2 := by
      simp [toggleTaskCompleteRun, hcur]
    rw [h2]
    have hp2 : ({ completed := some (!(cur.completed.getD false)) } :
        TaskPatch).completed = some c := by
      simp [hcurc]
    obtain ⟨t2, ht2, ht2id, ht2c⟩ :=
      updateRun_find_completed _ now2 taskId _ c hp2 cur hcur r2 hecho2
    exact ⟨t2, ht2, by rw [ht2c, hc]⟩

/-- The concrete task and store for the C9 witness. -/
def toggledTask : Task := { id := "1", title := some "toggle me", completed := some false }

/-- Store holding only `toggledTask`. -/
def stToggle : TodoState :=
  { tasks := [toggledTask], loading := false, error := none, snapshot := none }

/-- Witness for C9: double toggle at a concrete store with both remote calls
rejecting (the fully offline path). -/
theorem toggle_complete_spec_witness :
    stToggle.tasks.find? (fun t => t.id == "1") = some toggledTask ∧
    ∃ t2, (toggleTaskCompleteRun
        (toggleTaskCompleteRun stToggle 1 "1" (.error "e1")).final 2 "1"
        (.error "e2")).final.tasks.find? (fun t => t.id == "1") = some t2 ∧
      t2.completed = toggledTask.completed :=
  ⟨by decide,
   (toggle_complete_spec stToggle 1 2 "1" (.error "e1") (.error "e2")).2.2
     toggledTask false (by decide) rfl trivial trivial⟩

end TodoManager
